import Mathlib

/-!
A shallow embedding of the Myndulon embeddable chat-widget loader
(source file src/frontend/widget/src/index.tsx) together with the
dashboard embed-code generator (source file
src/frontend/src/pages/WidgetsPage.tsx), and theorems about the loader
lifecycle: the single-instance invariant, validation behaviour,
teardown-before-create, destroy idempotence, shadow-DOM style isolation,
auto-initialization gating and the embedding contract.

The loader is a synchronous, single-threaded finite-state manager over
three module-level nullable handles (the React root, the container div
and the shadow root) and the children list of the host document body.
The embedding models each JS statement of the loader directly; DOM
elements created by the loader are identified by a creation serial so
that distinct created containers are distinct values.  Every operation
is a total Lean function, which also reflects that the loader never
throws into the host page.
-/

namespace Myndulon

/-- The configuration record passed to the loader.  The TypeScript
declaration requires `botId` and `apiKey`, but a JS caller can still omit
any field at runtime, so each field is an `Option String` (`none` stands
for absent/undefined); the source validates the two required fields by JS
truthiness. -/
structure WidgetConfig where
  botId : Option String
  apiKey : Option String
  apiUrl : Option String
  elementId : Option String
deriving DecidableEq

/-- JS truthiness of a `string | null | undefined` value: truthy exactly
when present and non-empty. -/
def truthy : Option String → Bool
  | none => false
  | some s => s != ""

/-- The validation performed at the top of `init`: both `botId` and
`apiKey` must be truthy. -/
def validCfg (config : WidgetConfig) : Bool :=
  truthy config.botId && truthy config.apiKey

/-- The fixed DOM id the loader assigns to its container div
(source line `widgetContainer.id = 'myndulon-widget-root'`). -/
def containerDomId : String := "myndulon-widget-root"

/-- The fixed DOM id of the mount point created inside the shadow root. -/
def mountPointId : String := "myndulon-widget-app"

/-- A child of `document.body` as far as the loader can observe it: an
arbitrary host-page element carrying some id, a loader-created container
(creation serial plus id attribute), or a host style element.  The style
constructor exists so that "the loader injects no style into the host
document" is a meaningful statement, not one true by type. -/
inductive BodyChild
  | host (elemId : String)
  | container (serial : Nat) (elemId : String)
  | styleChild (css : String)
deriving DecidableEq

/-- A child of the widget's shadow root: the mount-point div or the
injected style element holding the reset/scrollbar stylesheet. -/
inductive ShadowChild
  | mount (elemId : String)
  | styleElem (css : String)
deriving DecidableEq

/-- The shadow root produced by `widgetContainer.attachShadow(\x7b mode: 'open' \x7d)`:
it records which container (by serial) it is attached to, its mode, and
its children in document order. -/
structure Shadow where
  hostSerial : Nat
  mode : String
  children : List ShadowChild
deriving DecidableEq

/-- The React root produced by `ReactDOM.createRoot(mountPoint)` and
rendered with `<ChatWidget config=\x7bconfig\x7d />`: `hostSerial` is the serial
of the container whose shadow-root mount point the root renders into, and
`config` is the configuration object passed through unchanged. -/
structure ReactRoot where
  hostSerial : Nat
  config : WidgetConfig
deriving DecidableEq

/-- Observable side effects of the loader, in order of occurrence:
console diagnostics, DOM attachment/detachment of a loader container,
shadow attachment, and React unmount. -/
inductive Ev
  | consoleError (msg : String)
  | consoleLog (msg : String) (arg : Option String)
  | appendChild (serial : Nat)
  | attachShadow (serial : Nat)
  | unmount (serial : Nat)
  | removeChild (serial : Nat)
deriving DecidableEq

/-- The loader's complete state: the three module-level handles
(`widgetRoot`, `widgetContainer`, `shadowRoot` — the container handle is
just the serial of the held element), the children of `document.body`,
a fresh-serial counter for element creation, and the trace of observable
events so far. -/
structure LoaderState where
  widgetRoot : Option ReactRoot
  widgetContainer : Option Nat
  shadowRoot : Option Shadow
  body : List BodyChild
  nextSerial : Nat
  events : List Ev
deriving DecidableEq

/-- Whether a body child is the loader container with the given serial. -/
def isContainerSerial (c : Nat) : BodyChild → Bool
  | .container n _ => n == c
  | _ => false

/-- Whether the container with serial `c` is currently attached to the
document body, i.e. `widgetContainer.parentNode` is non-null. -/
def hasParent (c : Nat) (body : List BodyChild) : Bool :=
  body.any (isContainerSerial c)

/-- The `destroy` function of the loader, translated statement by
statement: early return when both the root and the container handle are
null; unmount the React root if present; remove the container from its
parent if it still has one (and only then clear the container handle);
finally clear the shadow-root handle. -/
def destroy (s : LoaderState) : LoaderState :=
  if s.widgetRoot.isNone && s.widgetContainer.isNone then s
  else
    let s1 :=
      match s.widgetRoot with
      | some r => { s with widgetRoot := none, events := s.events ++ [Ev.unmount r.hostSerial] }
      | none => s
    let s2 :=
      match s1.widgetContainer with
      | some c =>
        if hasParent c s1.body then
          { s1 with
              widgetContainer := none,
              body := s1.body.filter (fun ch => !(isContainerSerial c ch)),
              events := s1.events ++ [Ev.removeChild c] }
        else s1
      | none => s1
    { s2 with shadowRoot := none }

/-- The stylesheet text injected into the shadow root, verbatim from the
source template literal. -/
def baseStyles : String :=
  "\n    * \x7b\n      box-sizing: border-box;\n      margin: 0;\n      padding: 0;\n    \x7d\n\n    #myndulon-widget-app \x7b\n      all: initial;\n      font-family: -apple-system, BlinkMacSystemFont, \"Segoe UI\", Roboto, \"Helvetica Neue\", Arial, sans-serif;\n    \x7d\n\n    /* Scrollbar styling */\n    ::-webkit-scrollbar \x7b\n      width: 8px;\n    \x7d\n\n    ::-webkit-scrollbar-track \x7b\n      background: #f1f1f1;\n    \x7d\n\n    ::-webkit-scrollbar-thumb \x7b\n      background: #c1c1c1;\n      border-radius: 4px;\n    \x7d\n\n    ::-webkit-scrollbar-thumb:hover \x7b\n      background: #a8a8a8;\n    \x7d\n  "

/-- The `init` function of the loader, translated statement by statement:
validate (console error and return on failure); `destroy()` any existing
instance; create the container div with the fixed id and append it to the
body; attach an open shadow root; append the mount point and the style
element inside the shadow root; create the React root on the mount point
and render the chat widget with the unmodified config; log completion
with the botId. -/
def init (config : WidgetConfig) (s : LoaderState) : LoaderState :=
  if !truthy config.botId || !truthy config.apiKey then
    { s with events := s.events ++ [Ev.consoleError "MyndulonWidget: botId and apiKey are required"] }
  else
    let s1 := destroy s
    let serial := s1.nextSerial
    { s1 with
        widgetContainer := some serial,
        body := s1.body ++ [BodyChild.container serial containerDomId],
        shadowRoot := some
          { hostSerial := serial, mode := "open",
            children := [ShadowChild.mount mountPointId, ShadowChild.styleElem baseStyles] },
        widgetRoot := some { hostSerial := serial, config := config },
        nextSerial := serial + 1,
        events := s1.events ++
          [Ev.appendChild serial, Ev.attachShadow serial,
           Ev.consoleLog "MyndulonWidget initialized:" config.botId] }

/-- A lifecycle call issued by the host page through the global
`MyndulonWidget` object. -/
inductive Call
  | doInit (config : WidgetConfig)
  | doDestroy
deriving DecidableEq

/-- One lifecycle call applied to a state. -/
def step (s : LoaderState) : Call → LoaderState
  | .doInit config => init config s
  | .doDestroy => destroy s

/-- A sequence of lifecycle calls applied left to right. -/
def run (s : LoaderState) : List Call → LoaderState
  | [] => s
  | c :: cs => run (step s c) cs

/-- `n` consecutive calls to `destroy`. -/
def destroyN : Nat → LoaderState → LoaderState
  | 0, s => s
  | n + 1, s => destroyN n (destroy s)

/-- The serials of all loader containers currently in the document body. -/
def containers (body : List BodyChild) : List Nat :=
  body.filterMap fun ch =>
    match ch with
    | .container n _ => some n
    | _ => none

/-- The style elements currently in the document body. -/
def styleChildren (body : List BodyChild) : List String :=
  body.filterMap fun ch =>
    match ch with
    | .styleChild css => some css
    | _ => none

/-- The number of loader containers attached to the document. -/
def liveCount (s : LoaderState) : Nat := (containers s.body).length

/-- The number of mounted React roots held by the loader. -/
def rootCount (s : LoaderState) : Nat :=
  match s.widgetRoot with
  | some _ => 1
  | none => 0

/-- A loader start state: all handles null, empty event trace, serial
counter at zero, over an arbitrary initial body content. -/
def initState (body0 : List BodyChild) : LoaderState :=
  { widgetRoot := none, widgetContainer := none, shadowRoot := none,
    body := body0, nextSerial := 0, events := [] }

/-- The IDLE configuration of the loader: all three handles are null. -/
def IsIdle (s : LoaderState) : Prop :=
  s.widgetRoot = none ∧ s.widgetContainer = none ∧ s.shadowRoot = none

/-- The states the loader itself can produce: either IDLE with no loader
container left in the body, or MOUNTED with the three handles set
consistently, exactly one loader container in the body (the held one),
and that serial below the fresh-serial counter. -/
inductive Coherent : LoaderState → Prop
  | idle (s : LoaderState)
      (h1 : s.widgetRoot = none) (h2 : s.widgetContainer = none)
      (h3 : s.shadowRoot = none) (hb : containers s.body = []) :
      Coherent s
  | mounted (s : LoaderState) (r : ReactRoot) (c : Nat) (sh : Shadow)
      (h1 : s.widgetRoot = some r) (h2 : s.widgetContainer = some c)
      (h3 : s.shadowRoot = some sh)
      (hr : r.hostSerial = c) (hsh : sh.hostSerial = c)
      (hb : containers s.body = [c]) (hn : c < s.nextSerial) :
      Coherent s

/-- Whether the last lifecycle-affecting call of a sequence was a
successful `init`: an `init` with invalid config changes no lifecycle
state and is skipped; the answer is `some true` for a successful `init`,
`some false` for a `destroy`, `none` when no lifecycle-affecting call
occurs in the sequence. -/
def lastLife : List Call → Option Bool
  | [] => none
  | c :: rest =>
    match lastLife rest with
    | some b => some b
    | none =>
      match c with
      | .doInit config => if validCfg config then some true else none
      | .doDestroy => some false

/-- A script tag in the host document, restricted to the three
data attributes the loader reads; `none` means the attribute is absent
(`getAttribute` returns null). -/
structure ScriptTag where
  botIdAttr : Option String
  apiKeyAttr : Option String
  apiUrlAttr : Option String
deriving DecidableEq

/-- The discovery step of auto-initialization:
`document.querySelector('script[data-myndulon-bot-id]')` returns the
first script element on which the marker attribute is present (with any
value, including the empty string). -/
def findWidgetScript (scripts : List ScriptTag) : Option ScriptTag :=
  scripts.find? fun t => t.botIdAttr.isSome

/-- The JS expression `x || undefined` applied to a
`string | null` attribute value: a null or empty result of `getAttribute`
becomes undefined (`none`). -/
def orUndefined : Option String → Option String
  | none => none
  | some u => if u = "" then none else some u

/-- The DOMContentLoaded auto-initialization callback, translated
statement by statement.  It returns the resulting loader state together
with the list of configs it passed to `init` (so that "how many `init`
calls occurred" is an observable of the model). -/
def autoInit (scripts : List ScriptTag) (s : LoaderState) :
    LoaderState × List WidgetConfig :=
  match findWidgetScript scripts with
  | none => (s, [])
  | some tag =>
    let botId := tag.botIdAttr
    let apiKey := tag.apiKeyAttr
    let apiUrl := orUndefined tag.apiUrlAttr
    if truthy botId && truthy apiKey then
      let config : WidgetConfig :=
        { botId := botId, apiKey := apiKey, apiUrl := apiUrl, elementId := none }
      (init config s, [config])
    else (s, [])

/-- A bot record as used by the dashboard embed-code dialog; only the
fields the dialog interpolates are modelled. -/
structure Bot where
  id : String
  api_key : String
deriving DecidableEq

/-- The embed snippet produced by `EmbedCodeDialog`, verbatim from the
source template literal (including the trailing space after the apiKey
line). -/
def embedCode (baseUrl : String) (bot : Bot) : String :=
  "<!-- Myndulon Widget -->\n<div id=\"myndulon-widget\"></div>\n<script src=\""
    ++ baseUrl
    ++ "/widget/widget.js\"></script>\n"
    ++ "<script>\n  MyndulonWidget.init(\x7b\n    botId: \x27"
    ++ bot.id
    ++ "\x27,\n    apiKey: \x27"
    ++ bot.api_key
    ++ "\x27, \n    apiUrl: \x27"
    ++ baseUrl
    ++ "\x27,\n    elementId: \x27"
    ++ "myndulon-widget"
    ++ "\x27\n  \x7d);\n</script>"

/-- Modelled from the spec (the embedding contract of section 6): the
part of the snippet that loads the loader script from the dashboard
origin. -/
def loadsLoaderScript (baseUrl : String) : String :=
  "<!-- Myndulon Widget -->\n<div id=\"myndulon-widget\"></div>\n<script src=\""
    ++ baseUrl ++ "/widget/widget.js\"></script>\n"

/-- Modelled from the spec (the embedding contract of section 6): a
script block that calls `MyndulonWidget.init` with the given config
values (all four fields present). -/
def callsInit (config : WidgetConfig) : String :=
  "<script>\n  MyndulonWidget.init(\x7b\n    botId: \x27"
    ++ config.botId.getD ""
    ++ "\x27,\n    apiKey: \x27"
    ++ config.apiKey.getD ""
    ++ "\x27, \n    apiUrl: \x27"
    ++ config.apiUrl.getD ""
    ++ "\x27,\n    elementId: \x27"
    ++ config.elementId.getD ""
    ++ "\x27\n  \x7d);\n</script>"

/-- The config the generated snippet passes to `init`, taken from the
bot's admin record and the dashboard origin. -/
def embedConfigOfBot (baseUrl : String) (bot : Bot) : WidgetConfig :=
  { botId := some bot.id, apiKey := some bot.api_key,
    apiUrl := some baseUrl, elementId := some "myndulon-widget" }

/-! ### Basic lemmas about the observables -/

theorem truthy_eq_false_iff (x : Option String) :
    truthy x = false ↔ x = none ∨ x = some "" := by
  cases x with
  | none => simp [truthy]
  | some s => simp [truthy]

theorem containers_append (a b : List BodyChild) :
    containers (a ++ b) = containers a ++ containers b := by
  simp [containers, List.filterMap_append]

theorem styleChildren_append (a b : List BodyChild) :
    styleChildren (a ++ b) = styleChildren a ++ styleChildren b := by
  simp [styleChildren, List.filterMap_append]

theorem containers_nil : containers [] = [] := rfl

theorem containers_cons_host (e : String) (rest : List BodyChild) :
    containers (BodyChild.host e :: rest) = containers rest := rfl

theorem containers_cons_container (n : Nat) (e : String) (rest : List BodyChild) :
    containers (BodyChild.container n e :: rest) = n :: containers rest := rfl

theorem containers_cons_style (css : String) (rest : List BodyChild) :
    containers (BodyChild.styleChild css :: rest) = containers rest := rfl

theorem styleChildren_cons_host (e : String) (rest : List BodyChild) :
    styleChildren (BodyChild.host e :: rest) = styleChildren rest := rfl

theorem styleChildren_cons_container (n : Nat) (e : String) (rest : List BodyChild) :
    styleChildren (BodyChild.container n e :: rest) = styleChildren rest := rfl

theorem styleChildren_cons_style (css : String) (rest : List BodyChild) :
    styleChildren (BodyChild.styleChild css :: rest) = css :: styleChildren rest := rfl

theorem isContainerSerial_host (c : Nat) (e : String) :
    isContainerSerial c (BodyChild.host e) = false := rfl

theorem isContainerSerial_container (c n : Nat) (e : String) :
    isContainerSerial c (BodyChild.container n e) = (n == c) := rfl

theorem isContainerSerial_style (c : Nat) (css : String) :
    isContainerSerial c (BodyChild.styleChild css) = false := rfl

theorem mem_containers_of_mem {n : Nat} {e : String} {body : List BodyChild}
    (h : BodyChild.container n e ∈ body) : n ∈ containers body := by
  induction body with
  | nil => cases h
  | cons ch rest ih =>
    rcases List.mem_cons.mp h with h2 | h2
    · rw [← h2, containers_cons_container]
      exact List.mem_cons_self _ _
    · clear h
      cases ch with
      | host e2 => rw [containers_cons_host]; exact ih h2
      | container n2 e2 => rw [containers_cons_container]; exact List.mem_cons_of_mem _ (ih h2)
      | styleChild css => rw [containers_cons_style]; exact ih h2

theorem hasParent_eq_true_iff (c : Nat) (body : List BodyChild) :
    hasParent c body = true ↔ c ∈ containers body := by
  induction body with
  | nil => simp [hasParent, containers]
  | cons ch rest ih =>
    cases ch with
    | host e =>
      rw [containers_cons_host, ← ih]
      simp [hasParent, List.any_cons, isContainerSerial_host]
    | container n e =>
      rw [containers_cons_container]
      simp only [hasParent, List.any_cons, isContainerSerial_container,
        Bool.or_eq_true, beq_iff_eq, List.mem_cons]
      rw [show (List.any rest (isContainerSerial c) = true) = (hasParent c rest = true) from rfl, ih]
      constructor
      · rintro (h | h)
        · exact Or.inl h.symm
        · exact Or.inr h
      · rintro (h | h)
        · exact Or.inl h.symm
        · exact Or.inr h
    | styleChild css =>
      rw [containers_cons_style, ← ih]
      simp [hasParent, List.any_cons, isContainerSerial_style]

theorem containers_filter (c : Nat) (body : List BodyChild) :
    containers (body.filter fun ch => !(isContainerSerial c ch)) =
      (containers body).filter (fun n => !(n == c)) := by
  induction body with
  | nil => rfl
  | cons ch rest ih =>
    cases ch with
    | host e =>
      simp [List.filter_cons, isContainerSerial_host, containers_cons_host, ih]
    | container n e =>
      by_cases h : n = c
      · simp [List.filter_cons, isContainerSerial_container, containers_cons_container, h, ih]
      · simp [List.filter_cons, isContainerSerial_container, containers_cons_container, h, ih]
    | styleChild css =>
      simp [List.filter_cons, isContainerSerial_style, containers_cons_style, ih]

theorem styleChildren_filter (c : Nat) (body : List BodyChild) :
    styleChildren (body.filter fun ch => !(isContainerSerial c ch)) =
      styleChildren body := by
  induction body with
  | nil => rfl
  | cons ch rest ih =>
    cases ch with
    | host e =>
      simp [List.filter_cons, isContainerSerial_host, styleChildren_cons_host, ih]
    | container n e =>
      by_cases h : n = c
      · simp [List.filter_cons, isContainerSerial_container, styleChildren_cons_container, h, ih]
      · simp [List.filter_cons, isContainerSerial_container, styleChildren_cons_container, h, ih]
    | styleChild css =>
      simp [List.filter_cons, isContainerSerial_style, styleChildren_cons_style, ih]

theorem host_mem_filter {e : String} {c : Nat} {body : List BodyChild}
    (h : BodyChild.host e ∈ body) :
    BodyChild.host e ∈ body.filter fun ch => !(isContainerSerial c ch) := by
  rw [List.mem_filter]
  exact ⟨h, by simp [isContainerSerial_host]⟩

/-! ### Characterizations of `destroy` and `init` -/

theorem destroy_idle_eq {s : LoaderState} (h1 : s.widgetRoot = none)
    (h2 : s.widgetContainer = none) : destroy s = s := by
  simp [destroy, h1, h2]

theorem destroy_mounted_eq {s : LoaderState} {r : ReactRoot} {c : Nat}
    (h1 : s.widgetRoot = some r) (h2 : s.widgetContainer = some c)
    (hp : hasParent c s.body = true) :
    destroy s =
      { widgetRoot := none, widgetContainer := none, shadowRoot := none,
        body := s.body.filter fun ch => !(isContainerSerial c ch),
        nextSerial := s.nextSerial,
        events := s.events ++ [Ev.unmount r.hostSerial, Ev.removeChild c] } := by
  simp [destroy, h1, h2, hp]

theorem destroy_detached_eq {s : LoaderState} {r : ReactRoot} {c : Nat}
    (h1 : s.widgetRoot = some r) (h2 : s.widgetContainer = some c)
    (hp : hasParent c s.body = false) :
    destroy s =
      { s with widgetRoot := none, shadowRoot := none,
               events := s.events ++ [Ev.unmount r.hostSerial] } := by
  simp [destroy, h1, h2, hp]

theorem destroy_coherent_eqs {s : LoaderState} (hs : Coherent s) :
    IsIdle (destroy s) ∧ containers (destroy s).body = [] ∧
    (destroy s).nextSerial = s.nextSerial ∧
    styleChildren (destroy s).body = styleChildren s.body ∧
    Coherent (destroy s) := by
  cases hs with
  | idle h1 h2 h3 hb =>
    rw [destroy_idle_eq h1 h2]
    exact ⟨⟨h1, h2, h3⟩, hb, rfl, rfl, .idle s h1 h2 h3 hb⟩
  | mounted r c sh h1 h2 h3 hr hsh hb hn =>
    have hp : hasParent c s.body = true := by
      rw [hasParent_eq_true_iff, hb]
      exact List.mem_cons_self c []
    rw [destroy_mounted_eq h1 h2 hp]
    have hc : containers (s.body.filter fun ch => !(isContainerSerial c ch)) = [] := by
      rw [containers_filter, hb]
      simp
    exact ⟨⟨rfl, rfl, rfl⟩, hc, rfl, styleChildren_filter c s.body,
      .idle _ rfl rfl rfl hc⟩

theorem init_invalid_eq {config : WidgetConfig} (h : validCfg config = false)
    (s : LoaderState) :
    init config s =
      { s with events := s.events ++
          [Ev.consoleError "MyndulonWidget: botId and apiKey are required"] } := by
  have hg : (!truthy config.botId || !truthy config.apiKey) = true := by
    rw [← Bool.not_and]
    rw [validCfg] at h
    rw [h]
    rfl
  simp [init, hg]

theorem init_valid_eq {config : WidgetConfig} (h : validCfg config = true)
    (s : LoaderState) :
    init config s =
      { widgetRoot := some { hostSerial := (destroy s).nextSerial, config := config },
        widgetContainer := some (destroy s).nextSerial,
        shadowRoot := some
          { hostSerial := (destroy s).nextSerial, mode := "open",
            children := [ShadowChild.mount mountPointId, ShadowChild.styleElem baseStyles] },
        body := (destroy s).body ++
          [BodyChild.container (destroy s).nextSerial containerDomId],
        nextSerial := (destroy s).nextSerial + 1,
        events := (destroy s).events ++
          [Ev.appendChild (destroy s).nextSerial, Ev.attachShadow (destroy s).nextSerial,
           Ev.consoleLog "MyndulonWidget initialized:" config.botId] } := by
  rw [validCfg, Bool.and_eq_true] at h
  simp [init, h.1, h.2]

theorem init_coherent {s : LoaderState} (hs : Coherent s) (config : WidgetConfig) :
    Coherent (init config s) := by
  by_cases h : validCfg config = true
  · rw [init_valid_eq h]
    obtain ⟨-, hc, -, -, -⟩ := destroy_coherent_eqs hs
    refine .mounted _ _ ((destroy s).nextSerial) _ rfl rfl rfl rfl rfl ?_ ?_
    · rw [containers_append, hc]
      rfl
    · exact Nat.lt_succ_self _
  · rw [init_invalid_eq (by simpa using h)]
    cases hs with
    | idle h1 h2 h3 hb => exact .idle _ h1 h2 h3 hb
    | mounted r c sh h1 h2 h3 hr hsh hb hn =>
      exact .mounted _ r c sh h1 h2 h3 hr hsh hb hn

theorem destroy_coherent {s : LoaderState} (hs : Coherent s) : Coherent (destroy s) :=
  (destroy_coherent_eqs hs).2.2.2.2

theorem step_coherent {s : LoaderState} (hs : Coherent s) (c : Call) :
    Coherent (step s c) := by
  cases c with
  | doInit config => exact init_coherent hs config
  | doDestroy => exact destroy_coherent hs

theorem run_coherent {s : LoaderState} (hs : Coherent s) (calls : List Call) :
    Coherent (run s calls) := by
  induction calls generalizing s with
  | nil => exact hs
  | cons c cs ih => exact ih (step_coherent hs c)

theorem destroy_nextSerial (s : LoaderState) : (destroy s).nextSerial = s.nextSerial := by
  unfold destroy
  split
  · rfl
  · cases h1 : s.widgetRoot <;> cases h2 : s.widgetContainer <;>
      simp only [h1, h2] <;> (split <;> rfl)

theorem destroy_styleChildren (s : LoaderState) :
    styleChildren (destroy s).body = styleChildren s.body := by
  unfold destroy
  split
  · rfl
  · cases h1 : s.widgetRoot <;> cases h2 : s.widgetContainer <;>
      simp only [h1, h2] <;> (split <;> simp [styleChildren_filter])

theorem destroy_host_mem {e : String} {s : LoaderState}
    (h : BodyChild.host e ∈ s.body) : BodyChild.host e ∈ (destroy s).body := by
  unfold destroy
  split
  · exact h
  · cases h1 : s.widgetRoot <;> cases h2 : s.widgetContainer <;>
      simp only [h1, h2] <;> (try exact h) <;>
      (split
       · exact host_mem_filter h
       · exact h)

/-! ### Live-instance counting -/

theorem liveCount_le_one_of_coherent {s : LoaderState} (hs : Coherent s) :
    liveCount s ≤ 1 := by
  cases hs with
  | idle h1 h2 h3 hb => simp [liveCount, hb]
  | mounted r c sh h1 h2 h3 hr hsh hb hn => simp [liveCount, hb]

theorem rootCount_eq_liveCount_of_coherent {s : LoaderState} (hs : Coherent s) :
    rootCount s = liveCount s := by
  cases hs with
  | idle h1 h2 h3 hb => simp [rootCount, liveCount, h1, hb]
  | mounted r c sh h1 h2 h3 hr hsh hb hn => simp [rootCount, liveCount, h1, hb]

theorem liveCount_destroy {s : LoaderState} (hs : Coherent s) :
    liveCount (destroy s) = 0 := by
  have hc := (destroy_coherent_eqs hs).2.1
  simp [liveCount, hc]

theorem liveCount_init_valid {s : LoaderState} (hs : Coherent s)
    {config : WidgetConfig} (h : validCfg config = true) :
    liveCount (init config s) = 1 := by
  rw [init_valid_eq h]
  obtain ⟨-, hc, -, -, -⟩ := destroy_coherent_eqs hs
  simp [liveCount, containers_append, hc, containers_cons_container, containers_nil]

theorem liveCount_init_invalid {s : LoaderState} {config : WidgetConfig}
    (h : validCfg config = false) :
    liveCount (init config s) = liveCount s := by
  rw [init_invalid_eq h]
  rfl

theorem run_live_iff {s : LoaderState} (hs : Coherent s) (calls : List Call) :
    (liveCount (run s calls) = 1 ↔
      (match lastLife calls with
       | some true => True
       | some false => False
       | none => liveCount s = 1)) := by
  induction calls generalizing s with
  | nil => simp [run, lastLife]
  | cons c cs ih =>
    rw [show run s (c :: cs) = run (step s c) cs from rfl, ih (step_coherent hs c)]
    cases hl : lastLife cs with
    | some b => cases b <;> simp [lastLife, hl]
    | none =>
      cases c with
      | doDestroy =>
        simp [lastLife, hl, step, liveCount_destroy hs]
      | doInit config =>
        by_cases hv : validCfg config = true
        · simp [lastLife, hl, hv, step, liveCount_init_valid hs hv]
        · have hv2 : validCfg config = false := by simpa using hv
          simp [lastLife, hl, hv2, step, liveCount_init_invalid hv2]

/-! ### Claim theorems -/

/-- C1: for any sequence of `init`/`destroy` calls starting from an idle
loader over a body with no loader container, the number of live mounted
widget instances is always 0 or 1 (so in particular at every intermediate
point of any sequence, since every prefix is itself a sequence), the
mounted-root count agrees with the attached-container count, and the count
equals 1 exactly when the last lifecycle-affecting call of the sequence was
a successful `init` (an `init` that failed validation is not
lifecycle-affecting). -/
theorem single_instance_C1 (body0 : List BodyChild) (h0 : containers body0 = [])
    (calls : List Call) :
    liveCount (run (initState body0) calls) ≤ 1 ∧
    rootCount (run (initState body0) calls) = liveCount (run (initState body0) calls) ∧
    (liveCount (run (initState body0) calls) = 1 ↔ lastLife calls = some true) := by
  have hc0 : Coherent (initState body0) := .idle _ rfl rfl rfl h0
  have hc := run_coherent hc0 calls
  refine ⟨liveCount_le_one_of_coherent hc, rootCount_eq_liveCount_of_coherent hc, ?_⟩
  rw [run_live_iff hc0 calls]
  cases hl : lastLife calls with
  | none => simp [liveCount, initState, h0]
  | some b => cases b <;> simp

/-- Witness for C1 at a concrete body and call sequence. -/
theorem single_instance_C1_witness :
    liveCount (run (initState [BodyChild.host "content"])
        [Call.doInit ⟨some "b1", some "k1", none, none⟩,
         Call.doInit ⟨none, some "k2", none, none⟩,
         Call.doDestroy,
         Call.doInit ⟨some "b2", some "k2", none, none⟩]) ≤ 1 ∧
    rootCount (run (initState [BodyChild.host "content"])
        [Call.doInit ⟨some "b1", some "k1", none, none⟩,
         Call.doInit ⟨none, some "k2", none, none⟩,
         Call.doDestroy,
         Call.doInit ⟨some "b2", some "k2", none, none⟩]) =
      liveCount (run (initState [BodyChild.host "content"])
        [Call.doInit ⟨some "b1", some "k1", none, none⟩,
         Call.doInit ⟨none, some "k2", none, none⟩,
         Call.doDestroy,
         Call.doInit ⟨some "b2", some "k2", none, none⟩]) ∧
    (liveCount (run (initState [BodyChild.host "content"])
        [Call.doInit ⟨some "b1", some "k1", none, none⟩,
         Call.doInit ⟨none, some "k2", none, none⟩,
         Call.doDestroy,
         Call.doInit ⟨some "b2", some "k2", none, none⟩]) = 1 ↔
      lastLife
        [Call.doInit ⟨some "b1", some "k1", none, none⟩,
         Call.doInit ⟨none, some "k2", none, none⟩,
         Call.doDestroy,
         Call.doInit ⟨some "b2", some "k2", none, none⟩] = some true) :=
  single_instance_C1 [BodyChild.host "content"] rfl
    [Call.doInit ⟨some "b1", some "k1", none, none⟩,
     Call.doInit ⟨none, some "k2", none, none⟩,
     Call.doDestroy,
     Call.doInit ⟨some "b2", some "k2", none, none⟩]

/-- C2: calling `init` with a missing or empty `botId`, or a missing or
empty `apiKey`, when the loader is IDLE leaves it IDLE: no container is
created (the body is unchanged), nothing is mounted, and the only
observable effect is the console diagnostic.  (No exception can propagate
to the host page: `init` is a total function of the state.) -/
theorem validation_noop_C2 (s : LoaderState) (config : WidgetConfig)
    (hbad : config.botId = none ∨ config.botId = some "" ∨
            config.apiKey = none ∨ config.apiKey = some "")
    (hidle : IsIdle s) :
    IsIdle (init config s) ∧
    (init config s).body = s.body ∧
    (init config s).widgetContainer = none ∧
    (init config s).widgetRoot = none ∧
    (init config s).events =
      s.events ++ [Ev.consoleError "MyndulonWidget: botId and apiKey are required"] := by
  have hv : validCfg config = false := by
    rcases hbad with h | h | h | h <;> simp [validCfg, truthy, h]
  rw [init_invalid_eq hv]
  obtain ⟨h1, h2, h3⟩ := hidle
  exact ⟨⟨h1, h2, h3⟩, rfl, h2, h1, rfl⟩

/-- Witness for C2: an `init` with an empty `botId` on an idle loader. -/
theorem validation_noop_C2_witness :
    IsIdle (init ⟨some "", some "k", none, none⟩ (initState [BodyChild.host "x"])) ∧
    (init ⟨some "", some "k", none, none⟩ (initState [BodyChild.host "x"])).body =
      (initState [BodyChild.host "x"]).body ∧
    (init ⟨some "", some "k", none, none⟩ (initState [BodyChild.host "x"])).widgetContainer = none ∧
    (init ⟨some "", some "k", none, none⟩ (initState [BodyChild.host "x"])).widgetRoot = none ∧
    (init ⟨some "", some "k", none, none⟩ (initState [BodyChild.host "x"])).events =
      (initState [BodyChild.host "x"]).events ++
        [Ev.consoleError "MyndulonWidget: botId and apiKey are required"] :=
  validation_noop_C2 (initState [BodyChild.host "x"]) ⟨some "", some "k", none, none⟩
    (Or.inr (Or.inl rfl)) ⟨rfl, rfl, rfl⟩

/-- C9 (implicit): validation precedes teardown — an `init` with a missing
or empty `botId` or `apiKey` leaves the whole loader state untouched even
while an instance is mounted: the resulting state equals the old state with
only the console diagnostic appended to the trace (no unmount, no container
removal, no handle cleared). -/
theorem invalid_init_untouched_C9 (s : LoaderState) (r : ReactRoot)
    (config : WidgetConfig)
    (hmounted : s.widgetRoot = some r)
    (hbad : config.botId = none ∨ config.botId = some "" ∨
            config.apiKey = none ∨ config.apiKey = some "") :
    init config s =
      { s with events := s.events ++
          [Ev.consoleError "MyndulonWidget: botId and apiKey are required"] } := by
  have hv : validCfg config = false := by
    rcases hbad with h | h | h | h <;> simp [validCfg, truthy, h]
  exact init_invalid_eq hv s

/-- Witness for C9: an invalid `init` on a mounted state. -/
theorem invalid_init_untouched_C9_witness :
    init ⟨some "b", none, none, none⟩
        (init ⟨some "b0", some "k0", none, none⟩ (initState [])) =
      { init ⟨some "b0", some "k0", none, none⟩ (initState []) with
        events := (init ⟨some "b0", some "k0", none, none⟩ (initState [])).events ++
          [Ev.consoleError "MyndulonWidget: botId and apiKey are required"] } :=
  invalid_init_untouched_C9 (init ⟨some "b0", some "k0", none, none⟩ (initState []))
    { hostSerial := 0, config := ⟨some "b0", some "k0", none, none⟩ }
    ⟨some "b", none, none, none⟩ rfl (Or.inr (Or.inr (Or.inl rfl)))

theorem destroy_destroy {s : LoaderState} (hs : Coherent s) :
    destroy (destroy s) = destroy s := by
  obtain ⟨⟨h1, h2, h3⟩, -, -, -, -⟩ := destroy_coherent_eqs hs
  exact destroy_idle_eq h1 h2

theorem destroyN_eq_destroy {s : LoaderState} (hs : Coherent s) :
    ∀ n : Nat, destroyN (n + 1) s = destroy s
  | 0 => rfl
  | n + 1 => by
    rw [show destroyN (n + 2) s = destroyN (n + 1) (destroy s) from rfl,
      destroyN_eq_destroy (destroy_coherent hs) n, destroy_destroy hs]

/-- C4: calling `destroy` N times consecutively (N ≥ 1) from any state the
loader can be in results in the same final IDLE state as calling it once
(equality of whole states, the event trace included, so the N calls are
observably equivalent to one call); and when no instance is live, `destroy`
is a strict no-op: the state, the document and the trace are all unchanged
and no error occurs. -/
theorem destroy_idempotent_C4 (s : LoaderState) (hs : Coherent s) (n : Nat)
    (hn : 1 ≤ n) :
    destroyN n s = destroy s ∧ IsIdle (destroyN n s) ∧
    (liveCount s = 0 → destroy s = s) := by
  obtain ⟨m, rfl⟩ : ∃ m, n = m + 1 := ⟨n - 1, by omega⟩
  have heq := destroyN_eq_destroy hs m
  refine ⟨heq, ?_, ?_⟩
  · rw [heq]
    exact (destroy_coherent_eqs hs).1
  · intro hz
    cases hs with
    | idle h1 h2 h3 hb => exact destroy_idle_eq h1 h2
    | mounted r c sh h1 h2 h3 hr hsh hb hn2 =>
      exfalso
      rw [liveCount, hb] at hz
      exact absurd hz (by simp)

/-- Witness for C4: three consecutive destroys on a mounted loader. -/
theorem destroy_idempotent_C4_witness :
    destroyN 3 (init ⟨some "b", some "k", none, none⟩ (initState [])) =
      destroy (init ⟨some "b", some "k", none, none⟩ (initState [])) ∧
    IsIdle (destroyN 3 (init ⟨some "b", some "k", none, none⟩ (initState []))) ∧
    (liveCount (init ⟨some "b", some "k", none, none⟩ (initState [])) = 0 →
      destroy (init ⟨some "b", some "k", none, none⟩ (initState [])) =
        init ⟨some "b", some "k", none, none⟩ (initState [])) :=
  destroy_idempotent_C4 (init ⟨some "b", some "k", none, none⟩ (initState []))
    (init_coherent (.idle (initState []) rfl rfl rfl rfl) ⟨some "b", some "k", none, none⟩)
    3 (by omega)

/-- C3: in any loader-reachable state, `init A` immediately followed by
`init B` (both configs valid) yields exactly one live container in the
document — the one created by the `B` call — with the mounted root
configured with `B`; the `A` instance was unmounted (its unmount event is
in the trace) and no container created by the `A` call remains in the
document. -/
theorem teardown_before_create_C3 (s : LoaderState) (hs : Coherent s)
    (A B : WidgetConfig) (hA : validCfg A = true) (hB : validCfg B = true) :
    containers (init B (init A s)).body = [s.nextSerial + 1] ∧
    (init B (init A s)).widgetRoot =
      some { hostSerial := s.nextSerial + 1, config := B } ∧
    Ev.unmount s.nextSerial ∈ (init B (init A s)).events ∧
    s.nextSerial ∉ containers (init B (init A s)).body := by
  obtain ⟨-, hc0, hn0, -, -⟩ := destroy_coherent_eqs hs
  have hs1 : Coherent (init A s) := init_coherent hs A
  obtain ⟨-, hc1, hn1, -, -⟩ := destroy_coherent_eqs hs1
  have hns1 : (init A s).nextSerial = s.nextSerial + 1 := by
    rw [init_valid_eq hA, hn0]
  have hroot1 : (init A s).widgetRoot =
      some { hostSerial := s.nextSerial, config := A } := by
    rw [init_valid_eq hA, hn0]
  have hcont1 : (init A s).widgetContainer = some s.nextSerial := by
    rw [init_valid_eq hA, hn0]
  have hb1 : containers (init A s).body = [s.nextSerial] := by
    rw [init_valid_eq hA]
    simp only [containers_append, hc0, hn0, containers_cons_container, containers_nil]
    rfl
  have hp1 : hasParent s.nextSerial (init A s).body = true := by
    rw [hasParent_eq_true_iff, hb1]
    exact List.mem_cons_self _ []
  have hd1 := destroy_mounted_eq hroot1 hcont1 hp1
  refine ⟨?_, ?_, ?_, ?_⟩
  · rw [init_valid_eq hB]
    simp only [containers_append, hc1, hn1, hns1, containers_cons_container,
      containers_nil]
    rfl
  · rw [init_valid_eq hB, hn1, hns1]
  · rw [init_valid_eq hB]
    simp only [hd1]
    simp [List.mem_append]
  · rw [init_valid_eq hB]
    simp only [containers_append, hc1, hn1, hns1, containers_cons_container,
      containers_nil]
    simp

/-- Witness for C3: two concrete back-to-back valid `init` calls. -/
theorem teardown_before_create_C3_witness :
    containers (init ⟨some "b2", some "k2", none, none⟩
        (init ⟨some "b1", some "k1", none, none⟩ (initState []))).body =
      [(initState []).nextSerial + 1] ∧
    (init ⟨some "b2", some "k2", none, none⟩
        (init ⟨some "b1", some "k1", none, none⟩ (initState []))).widgetRoot =
      some { hostSerial := (initState []).nextSerial + 1,
             config := ⟨some "b2", some "k2", none, none⟩ } ∧
    Ev.unmount (initState []).nextSerial ∈
      (init ⟨some "b2", some "k2", none, none⟩
        (init ⟨some "b1", some "k1", none, none⟩ (initState []))).events ∧
    (initState []).nextSerial ∉
      containers (init ⟨some "b2", some "k2", none, none⟩
        (init ⟨some "b1", some "k1", none, none⟩ (initState []))).body :=
  teardown_before_create_C3 (initState []) (.idle (initState []) rfl rfl rfl rfl)
    ⟨some "b1", some "k1", none, none⟩ ⟨some "b2", some "k2", none, none⟩ rfl rfl

/-- C5 counterexample: on a live instance whose container was already
detached from the document by the host page, `destroy` does NOT clear all
three handles — the container handle stays set (the source nulls
`widgetContainer` only inside the `parentNode` branch), so the claim
"all three owned resource handles are cleared in every case" is false. -/
theorem destroy_detached_C5_counterexample :
    (destroy
        { widgetRoot := some
            { hostSerial := 0, config := ⟨some "b", some "k", none, none⟩ },
          widgetContainer := some 0,
          shadowRoot := some
            { hostSerial := 0, mode := "open",
              children := [ShadowChild.mount mountPointId,
                           ShadowChild.styleElem baseStyles] },
          body := [], nextSerial := 1, events := [] }).widgetContainer = some 0 ∧
    ¬ IsIdle (destroy
        { widgetRoot := some
            { hostSerial := 0, config := ⟨some "b", some "k", none, none⟩ },
          widgetContainer := some 0,
          shadowRoot := some
            { hostSerial := 0, mode := "open",
              children := [ShadowChild.mount mountPointId,
                           ShadowChild.styleElem baseStyles] },
          body := [], nextSerial := 1, events := [] }) := by
  refine ⟨rfl, ?_⟩
  intro h
  exact absurd h.2.1 (by simp [destroy, hasParent])

/-- C5 as amended: on a live instance (root and container handles set),
`destroy` unmounts the UI component first, then removes the container from
the document only if the container still has a parent; the root and
shadow-root handles are always cleared, while the container handle is
cleared exactly when the container still had a parent — when the host page
had already detached it, the container handle is left set and the body is
untouched.  The trace records the unmount strictly before the removal. -/
theorem destroy_live_C5 (s : LoaderState) (r : ReactRoot) (c : Nat)
    (h1 : s.widgetRoot = some r) (h2 : s.widgetContainer = some c) :
    (destroy s).widgetRoot = none ∧ (destroy s).shadowRoot = none ∧
    (if hasParent c s.body then
        (destroy s).widgetContainer = none ∧
        (destroy s).body = s.body.filter (fun ch => !(isContainerSerial c ch)) ∧
        (destroy s).events = s.events ++ [Ev.unmount r.hostSerial, Ev.removeChild c]
      else
        (destroy s).widgetContainer = some c ∧
        (destroy s).body = s.body ∧
        (destroy s).events = s.events ++ [Ev.unmount r.hostSerial]) := by
  by_cases hp : hasParent c s.body = true
  · rw [destroy_mounted_eq h1 h2 hp]
    simp [hp]
  · have hp2 : hasParent c s.body = false := by simpa using hp
    rw [destroy_detached_eq h1 h2 hp2]
    simp [hp2, h2]

/-- Witness for C5 (amended) on a live attached instance. -/
theorem destroy_live_C5_witness :
    (destroy (init ⟨some "b", some "k", none, none⟩ (initState []))).widgetRoot = none ∧
    (destroy (init ⟨some "b", some "k", none, none⟩ (initState []))).shadowRoot = none ∧
    (if hasParent 0 (init ⟨some "b", some "k", none, none⟩ (initState [])).body then
        (destroy (init ⟨some "b", some "k", none, none⟩ (initState []))).widgetContainer = none ∧
        (destroy (init ⟨some "b", some "k", none, none⟩ (initState []))).body =
          (init ⟨some "b", some "k", none, none⟩ (initState [])).body.filter
            (fun ch => !(isContainerSerial 0 ch)) ∧
        (destroy (init ⟨some "b", some "k", none, none⟩ (initState []))).events =
          (init ⟨some "b", some "k", none, none⟩ (initState [])).events ++
            [Ev.unmount 0, Ev.removeChild 0]
      else
        (destroy (init ⟨some "b", some "k", none, none⟩ (initState []))).widgetContainer = some 0 ∧
        (destroy (init ⟨some "b", some "k", none, none⟩ (initState []))).body =
          (init ⟨some "b", some "k", none, none⟩ (initState [])).body ∧
        (destroy (init ⟨some "b", some "k", none, none⟩ (initState []))).events =
          (init ⟨some "b", some "k", none, none⟩ (initState [])).events ++
            [Ev.unmount 0]) :=
  destroy_live_C5 (init ⟨some "b", some "k", none, none⟩ (initState []))
    { hostSerial := 0, config := ⟨some "b", some "k", none, none⟩ } 0 rfl rfl

theorem styleChildren_nil : styleChildren [] = [] := rfl

/-- C7: every successful `init` attaches a true encapsulation boundary —
an open shadow root — to the freshly created container (the same serial),
and places both the injected reset/scrollbar stylesheet and the mount
point of the rendered UI component inside that boundary, while the host
document body gains no style element from the loader (its style children
are unchanged).  Class-name prefixing plays no role: the isolation comes
solely from the `attachShadow` boundary. -/
theorem style_isolation_C7 (s : LoaderState) (config : WidgetConfig)
    (h : validCfg config = true) :
    (init config s).shadowRoot =
      some { hostSerial := s.nextSerial, mode := "open",
             children := [ShadowChild.mount mountPointId,
                          ShadowChild.styleElem baseStyles] } ∧
    (init config s).widgetContainer = some s.nextSerial ∧
    (init config s).widgetRoot =
      some { hostSerial := s.nextSerial, config := config } ∧
    styleChildren (init config s).body = styleChildren s.body := by
  rw [init_valid_eq h, destroy_nextSerial]
  refine ⟨rfl, rfl, rfl, ?_⟩
  rw [styleChildren_append, destroy_styleChildren,
    styleChildren_cons_container, styleChildren_nil, List.append_nil]

/-- Witness for C7 at a concrete valid `init`. -/
theorem style_isolation_C7_witness :
    (init ⟨some "b", some "k", some "https://api", none⟩
        (initState [BodyChild.styleChild "body: red"])).shadowRoot =
      some { hostSerial := (initState [BodyChild.styleChild "body: red"]).nextSerial,
             mode := "open",
             children := [ShadowChild.mount mountPointId,
                          ShadowChild.styleElem baseStyles] } ∧
    (init ⟨some "b", some "k", some "https://api", none⟩
        (initState [BodyChild.styleChild "body: red"])).widgetContainer =
      some (initState [BodyChild.styleChild "body: red"]).nextSerial ∧
    (init ⟨some "b", some "k", some "https://api", none⟩
        (initState [BodyChild.styleChild "body: red"])).widgetRoot =
      some { hostSerial := (initState [BodyChild.styleChild "body: red"]).nextSerial,
             config := ⟨some "b", some "k", some "https://api", none⟩ } ∧
    styleChildren (init ⟨some "b", some "k", some "https://api", none⟩
        (initState [BodyChild.styleChild "body: red"])).body =
      styleChildren (initState [BodyChild.styleChild "body: red"]).body :=
  style_isolation_C7 (initState [BodyChild.styleChild "body: red"])
    ⟨some "b", some "k", some "https://api", none⟩ rfl

/-- C10 (implicit): `init` never honours `config.elementId`.  On any valid
`init` — even when the config names an existing host element by id, as the
dashboard-generated embed code does — the loader creates a fresh container
div carrying the fixed id `myndulon-widget-root` and appends it to the end
of `document.body`; the named host element stays in the body untouched and
nothing is mounted into it; and the entire resulting loader state is
independent of the `elementId` field except for the config object forwarded
verbatim to the mounted component. -/
theorem elementId_unused_C10 (s : LoaderState) (hs : Coherent s)
    (config : WidgetConfig) (h : validCfg config = true) (e : String)
    (he : config.elementId = some e) (hhost : BodyChild.host e ∈ s.body) :
    (init config s).body =
      (destroy s).body ++ [BodyChild.container s.nextSerial containerDomId] ∧
    containers (init config s).body = [s.nextSerial] ∧
    (init config s).widgetContainer = some s.nextSerial ∧
    BodyChild.host e ∈ (init config s).body ∧
    (∀ e2 : Option String,
      (init { config with elementId := e2 } s).body = (init config s).body ∧
      (init { config with elementId := e2 } s).widgetContainer =
        (init config s).widgetContainer ∧
      (init { config with elementId := e2 } s).shadowRoot =
        (init config s).shadowRoot ∧
      (init { config with elementId := e2 } s).nextSerial =
        (init config s).nextSerial ∧
      (init { config with elementId := e2 } s).events = (init config s).events ∧
      (init { config with elementId := e2 } s).widgetRoot =
        some { hostSerial := s.nextSerial,
               config := { config with elementId := e2 } }) := by
  have h2 : ∀ e2 : Option String, validCfg { config with elementId := e2 } = true :=
    fun _ => h
  obtain ⟨-, hc0, hn0, -, -⟩ := destroy_coherent_eqs hs
  refine ⟨?_, ?_, ?_, ?_, ?_⟩
  · rw [init_valid_eq h, hn0]
  · rw [init_valid_eq h]
    simp only [containers_append, hc0, hn0, containers_cons_container, containers_nil]
    rfl
  · rw [init_valid_eq h, hn0]
  · rw [init_valid_eq h]
    exact List.mem_append_left _ (destroy_host_mem hhost)
  · intro e2
    rw [init_valid_eq (h2 e2), init_valid_eq h, hn0]
    exact ⟨rfl, rfl, rfl, rfl, rfl, rfl⟩

/-- Witness for C10: the dashboard-style config naming an existing host
element `myndulon-widget` still gets a fresh loader container. -/
theorem elementId_unused_C10_witness :
    containers (init ⟨some "b", some "k", some "https://h", some "myndulon-widget"⟩
        (initState [BodyChild.host "myndulon-widget"])).body =
      [(initState [BodyChild.host "myndulon-widget"]).nextSerial] ∧
    BodyChild.host "myndulon-widget" ∈
      (init ⟨some "b", some "k", some "https://h", some "myndulon-widget"⟩
        (initState [BodyChild.host "myndulon-widget"])).body :=
  have hmain := elementId_unused_C10 (initState [BodyChild.host "myndulon-widget"])
    (.idle (initState [BodyChild.host "myndulon-widget"]) rfl rfl rfl rfl)
    ⟨some "b", some "k", some "https://h", some "myndulon-widget"⟩ rfl
    "myndulon-widget" rfl (List.mem_cons_self _ [])
  ⟨hmain.2.1, hmain.2.2.2.1⟩

/-- C6: auto-init gating.  If no script tag in the document bears the
loader's marker attribute `data-myndulon-bot-id`, the page-load callback
performs zero `init` calls and leaves the state untouched.  If the tag
discovery finds a marker-bearing script whose bot-id and api-key
attributes are both non-empty, exactly one `init` call occurs, with the
tag's attribute values passed verbatim as `botId` and `apiKey`, and with
an absent api-url attribute mapped to not-provided (`none`), never to an
empty string, while a present non-empty api-url attribute is passed
verbatim. -/
theorem auto_init_C6 (scripts : List ScriptTag) (s : LoaderState) :
    ((∀ t ∈ scripts, t.botIdAttr = none) → autoInit scripts s = (s, [])) ∧
    (∀ tag, findWidgetScript scripts = some tag →
      truthy tag.botIdAttr = true → truthy tag.apiKeyAttr = true →
      autoInit scripts s =
        (init { botId := tag.botIdAttr, apiKey := tag.apiKeyAttr,
                apiUrl := orUndefined tag.apiUrlAttr, elementId := none } s,
         [{ botId := tag.botIdAttr, apiKey := tag.apiKeyAttr,
            apiUrl := orUndefined tag.apiUrlAttr, elementId := none }]) ∧
      (tag.apiUrlAttr = none → orUndefined tag.apiUrlAttr = none) ∧
      (∀ u : String, u ≠ "" → tag.apiUrlAttr = some u →
        orUndefined tag.apiUrlAttr = some u)) := by
  constructor
  · intro hall
    have hnone : findWidgetScript scripts = none := by
      rw [findWidgetScript, List.find?_eq_none]
      intro t ht
      simp [hall t ht]
    simp [autoInit, hnone]
  · intro tag htag hb hk
    refine ⟨?_, ?_, ?_⟩
    · simp [autoInit, htag, hb, hk]
    · intro hu
      rw [hu]
      rfl
    · intro u hu hsome
      rw [hsome]
      simp [orUndefined, hu]

/-- Witness for C6: a document whose first marker-bearing script tag has
both required attributes and no api-url attribute. -/
theorem auto_init_C6_witness :
    autoInit [⟨none, some "x", some "y"⟩, ⟨some "B", some "K", none⟩] (initState []) =
      (init { botId := some "B", apiKey := some "K",
              apiUrl := orUndefined (none : Option String), elementId := none }
        (initState []),
       [{ botId := some "B", apiKey := some "K",
          apiUrl := orUndefined (none : Option String), elementId := none }]) ∧
    orUndefined (none : Option String) = none :=
  have hmain := (auto_init_C6 [⟨none, some "x", some "y"⟩, ⟨some "B", some "K", none⟩]
    (initState [])).2 ⟨some "B", some "K", none⟩ rfl rfl rfl
  ⟨hmain.1, hmain.2.1 rfl⟩

set_option maxRecDepth 8192 in
/-- A value-level check of the embed-code generator: the snippet assembled
for a concrete origin and bot record, verbatim. -/
theorem embedCode_value :
    embedCode "https://dash.example" { id := "bot-1", api_key := "key-1" } =
      "<!-- Myndulon Widget -->\n<div id=\"myndulon-widget\"></div>\n<script src=\"https://dash.example/widget/widget.js\"></script>\n<script>\n  MyndulonWidget.init(\x7b\n    botId: \x27bot-1\x27,\n    apiKey: \x27key-1\x27, \n    apiUrl: \x27https://dash.example\x27,\n    elementId: \x27myndulon-widget\x27\n  \x7d);\n</script>" := by
  decide

/-- C8: the embedding contract.  For every bot record and dashboard
origin, the embed snippet generated by the get-embed-code dialog is
exactly a part that loads the loader script from the dashboard origin
followed by a script block calling `MyndulonWidget.init` with a config
whose `botId` is the bot's `id`, whose `apiKey` is the bot's `api_key`,
and whose `apiUrl` is the dashboard origin. -/
theorem embed_contract_C8 (baseUrl : String) (bot : Bot) :
    embedCode baseUrl bot =
      loadsLoaderScript baseUrl ++ callsInit (embedConfigOfBot baseUrl bot) ∧
    (embedConfigOfBot baseUrl bot).botId = some bot.id ∧
    (embedConfigOfBot baseUrl bot).apiKey = some bot.api_key ∧
    (embedConfigOfBot baseUrl bot).apiUrl = some baseUrl := by
  refine ⟨?_, rfl, rfl, rfl⟩
  simp only [embedCode, loadsLoaderScript, callsInit, embedConfigOfBot,
    Option.getD_some, String.append_assoc]

end Myndulon
